import Mathlib

/-!
Shallow embedding of the AI-structure-ingestion core of the examredy
backend: the public fetch-out routes (rate limiter, concurrency guard,
board/subject/chapter ingestion loops), the admin ai-fetch routes
(placeholder guards and transactional batch loops), and the generation
client (`fetchAIStructure` with its mock fallback).  Machine-level
details that the routes delegate to external collaborators (the SQL
engine, axios, JSON.parse) are modelled by explicit state passing and
oracles, following the statements the routes actually issue.
-/

namespace ExamRedy

/-! ## String helpers

`strLower` models both JavaScript `String.prototype.toLowerCase` and SQL
`LOWER` on the ASCII names this system handles.  `listStarts`/`strIncludes`
model JavaScript `String.prototype.includes` (substring containment). -/

def strLower (s : String) : String :=
  String.mk (s.toList.map Char.toLower)

def listStarts : List Char → List Char → Bool
  | [], _ => true
  | _ :: _, [] => false
  | a :: as, b :: bs => a == b && listStarts as bs

def sublistAt (hay needle : List Char) : Bool :=
  match hay with
  | [] => needle.isEmpty
  | c :: t => listStarts needle (c :: t) || sublistAt t needle

def strIncludes (hay needle : String) : Bool :=
  sublistAt hay.toList needle.toList

def isTrimmable (c : Char) : Bool :=
  c == ' ' || c == '\t' || c == '\n' || c == '\r'

/-- JavaScript `String.prototype.trim` (on the ASCII whitespace these
names contain): drop whitespace from both ends. -/
def jsTrim (s : String) : String :=
  String.mk (((s.toList.dropWhile isTrimmable).reverse.dropWhile isTrimmable).reverse)

/-- JavaScript `(item.name || '').substring(0, 200).trim()` used by every
fetch-out ingestion loop to normalize a candidate name. -/
def normalizeCandidate (raw : String) : String :=
  jsTrim (String.mk (raw.toList.take 200))

/-! ## Rate limiter (`rateLimitMiddleware` in the structure routes file)

The middleware keeps one `{count, resetTime}` record per client IP in an
in-process map.  We model one check for one IP as a step on the optional
record for that IP, returning the updated record and whether the request
is allowed (`next()` called) or rejected with 429. -/

structure RateRecord where
  count : Nat
  resetTime : Nat
deriving DecidableEq, Repr

def rateWindowMs : Nat := 15 * 60 * 1000

def rateMaxRequests : Nat := 10

def rateLimitStep (rec? : Option RateRecord) (now : Nat) : RateRecord × Bool :=
  match rec? with
  | none => ({ count := 1, resetTime := now + rateWindowMs }, true)
  | some rec =>
    if rec.resetTime < now then
      ({ count := 1, resetTime := now + rateWindowMs }, true)
    else
      let c := rec.count + 1
      ({ rec with count := c }, decide (c ≤ rateMaxRequests))

/-! ## Concurrency guard (`activeFetches` set in the structure routes file)

Each fetch-out handler atomically checks-and-adds its key (no `await`
separates `has` from `add`, so the pair is atomic in the event loop),
rejects with 429 when the key is already in flight, and deletes the key
in a `finally` block regardless of the body's outcome. -/

def tryAcquire (s : List String) (k : String) : List String × Bool :=
  if k ∈ s then (s, false) else (k :: s, true)

def releaseKey (s : List String) (k : String) : List String :=
  s.erase k

/-- Two fetch-out requests for the same in-flight key, interleaved as in
the event loop when they are simultaneous: A's atomic check-and-add runs
first, B's runs while A is still in flight, then each acquired request's
body completes (success `200` or caught error `500`, per `aSucceeds` /
`bSucceeds`) and its `finally` releases the key.  Returns A's status, B's
status and the final guard set. -/
def runGuardedPair (s0 : List String) (k : String) (aSucceeds bSucceeds : Bool) :
    Nat × Nat × List String :=
  let p1 := tryAcquire s0 k
  let p2 := tryAcquire p1.1 k
  let aStatus := if p1.2 then (if aSucceeds then 200 else 500) else 429
  let s3 := if p1.2 then releaseKey p2.1 k else p2.1
  let bStatus := if p2.2 then (if bSucceeds then 200 else 500) else 429
  let s4 := if p2.2 then releaseKey s3 k else s3
  (aStatus, bStatus, s4)

/-! ## Boards table and board ingestion

`boards` rows as touched by the two board-ingestion routes.  Uniqueness
of `(state_id, name)` is a database constraint (required by the
`ON CONFLICT (state_id, name)` clauses); theorems take it as the
hypothesis `boardKeyCount db sid n ≤ 1`. -/

structure BoardRow where
  id : Nat
  name : String
  state_id : Nat
  is_active : Bool
deriving DecidableEq, Repr

def boardKey (sid : Nat) (n : String) (r : BoardRow) : Bool :=
  r.state_id == sid && r.name == n

def boardKeyCount (db : List BoardRow) (sid : Nat) (n : String) : Nat :=
  (db.filter (boardKey sid n)).length

/-- `INSERT INTO boards (name, state_id, is_active) VALUES ($1, $2, TRUE)
ON CONFLICT (state_id, name) DO UPDATE SET is_active = TRUE` — the
statement issued per candidate by `POST /fetch-out-boards`. -/
def fetchOutUpsertBoard (db : List BoardRow) (nextId : Nat) (n : String) (sid : Nat) :
    List BoardRow :=
  if db.any (boardKey sid n) then
    db.map (fun r => if boardKey sid n r then { r with is_active := true } else r)
  else
    db ++ [⟨nextId, n, sid, true⟩]

/-- `INSERT INTO boards (name, state_id, is_active) VALUES ($1, $2, $3) ON
CONFLICT (state_id, name) DO NOTHING RETURNING *` — the statement issued
per candidate by the admin `POST /ai-fetch/boards` (with `$3 = true`).
Returns the updated table and the returned row (`none` when the insert
was skipped by the conflict clause). -/
def adminInsertBoard (db : List BoardRow) (nextId : Nat) (n : String) (sid : Nat) :
    List BoardRow × Option BoardRow :=
  if db.any (boardKey sid n) then
    (db, none)
  else
    (db ++ [⟨nextId, n, sid, true⟩], some ⟨nextId, n, sid, true⟩)

/-- The non-school keyword denylist of `POST /fetch-out-boards`. -/
def nonSchoolKeywords : List String :=
  ["university", "joint entrance", "entrance examination", "jee", "neet",
   "council of higher", "technical education", "medical", "engineering",
   "college", "polytechnic", "distance education", "open university",
   "deemed", "affiliated"]

/-- One iteration of the `POST /fetch-out-boards` candidate loop: normalize
the name, skip it when empty or when it matches a non-school keyword
(case-insensitive substring), otherwise run the upsert statement. -/
def processFetchOutBoardItem (db : List BoardRow) (nextId : Nat) (sid : Nat)
    (raw : String) : List BoardRow :=
  let name := normalizeCandidate raw
  if name == "" then db
  else if nonSchoolKeywords.any (fun kw => strIncludes (strLower name) kw) then db
  else fetchOutUpsertBoard db nextId name sid

/-- The placeholder guard of the admin `POST /ai-fetch/boards` loop:
`name.toLowerCase().includes('board ') ||
name.toLowerCase().includes('placeholder')` (`continue` when true). -/
def adminBoardGuardSkips (name : String) : Bool :=
  strIncludes (strLower name) "board " || strIncludes (strLower name) "placeholder"

/-! ## Subjects table and subject ingestion

`subjects` rows as touched by `POST /fetch-out-subjects` and the admin
`POST /ai-fetch/subjects`.  Nullable columns are `Option Nat`;
`sqlEqNat` is SQL `col = param` (three-valued: a NULL operand never
matches), `sqlNullAwareEq` is the code's
`col = $n OR (col IS NULL AND $n IS NULL)` pattern. -/

structure SubjectRow where
  id : Nat
  name : String
  category_id : Nat
  board_id : Option Nat
  class_id : Option Nat
  stream_id : Option Nat
  university_id : Option Nat
  semester_id : Option Nat
  degree_type_id : Option Nat
  paper_stage_id : Option Nat
  is_active : Bool
  is_approved : Bool
deriving DecidableEq, Repr

def sqlEqNat (col param : Option Nat) : Bool :=
  match col, param with
  | some c, some p => c == p
  | _, _ => false

def sqlNullAwareEq (col param : Option Nat) : Bool :=
  sqlEqNat col param || (col.isNone && param.isNone)

/-- The existence query of `POST /fetch-out-subjects`:
`SELECT id FROM subjects WHERE board_id = $1 AND class_id = $2 AND
(stream_id = $3 OR (stream_id IS NULL AND $3 IS NULL)) AND
LOWER(name) = LOWER($4)`, as a row predicate.  `b`/`c` are the validated
(non-null) request ids, `s` is `stream_id || null`. -/
def fetchOutSubjectMatch (b c : Nat) (s : Option Nat) (n : String) (r : SubjectRow) :
    Bool :=
  sqlEqNat r.board_id (some b) && sqlEqNat r.class_id (some c) &&
    sqlNullAwareEq r.stream_id s && (strLower r.name == strLower n)

/-- The `WHERE NOT EXISTS` subquery of the admin `POST /ai-fetch/subjects`
insert: `SELECT 1 FROM subjects WHERE board_id = $3 AND class_id = $5 AND
(stream_id = $6 OR (stream_id IS NULL AND $6 IS NULL)) AND name = $1`,
as a row predicate.  Note the name comparison is plain `name = $1`. -/
def adminSubjectMatch (b c s : Option Nat) (n : String) (r : SubjectRow) : Bool :=
  sqlEqNat r.board_id b && sqlEqNat r.class_id c &&
    sqlNullAwareEq r.stream_id s && (r.name == n)

/-- The row built by the insert branch of `POST /fetch-out-subjects`:
`INSERT INTO subjects (name, category_id, board_id, class_id, stream_id,
is_active, is_approved) VALUES ($1, 1, $2, $3, $4, TRUE, TRUE)`; columns
not named in the insert default to NULL. -/
def mkFetchOutSubjectRow (nextId : Nat) (n : String) (b c : Nat) (s : Option Nat) :
    SubjectRow :=
  { id := nextId, name := n, category_id := 1, board_id := some b,
    class_id := some c, stream_id := s, university_id := none,
    semester_id := none, degree_type_id := none, paper_stage_id := none,
    is_active := true, is_approved := true }

/-- One iteration of the `POST /fetch-out-subjects` candidate loop:
normalize the name, skip when empty, then either reactivate the first
matching existing row (`UPDATE subjects SET is_active = TRUE WHERE id =
$1`) or insert a fresh row.  Returns the updated table and the `saved`
entries (`(id, name)`) pushed by this iteration. -/
def processFetchOutSubjectItem (db : List SubjectRow) (nextId : Nat) (b c : Nat)
    (s : Option Nat) (raw : String) : List SubjectRow × List (Nat × String) :=
  let n := normalizeCandidate raw
  if n == "" then (db, [])
  else
    match db.find? (fetchOutSubjectMatch b c s n) with
    | some r =>
      (db.map (fun x => if x.id == r.id then { x with is_active := true } else x),
       [(r.id, n)])
    | none => (db ++ [mkFetchOutSubjectRow nextId n b c s], [(nextId, n)])

/-! ## Admin batch transactions

Every admin ai-fetch route (`/boards`, `/universities`, `/papers`,
`/subjects`, `/chapters`) has the same shape: `BEGIN`, a loop that may
`continue` past a candidate (placeholder guard `skip`) and otherwise runs
one insert statement, `COMMIT`; on any statement error `ROLLBACK` and
rethrow; the outer catch answers 500.  `failOn` is the oracle saying
which candidates' statements fail (e.g. a constraint violation not
handled by `ON CONFLICT`, or a connection failure); `op` is the
per-candidate statement's successful effect, returning the new table and
the optional `RETURNING` row pushed onto `saved`. -/

def adminBatchRun {α β : Type} (skip failOn : String → Bool)
    (op : α → String → α × Option β) : α → List String → Except Unit (α × List β)
  | db, [] => Except.ok (db, [])
  | db, n :: rest =>
    if skip n then adminBatchRun skip failOn op db rest
    else if failOn n then Except.error ()
    else
      let step := op db n
      match adminBatchRun skip failOn op step.1 rest with
      | Except.error e => Except.error e
      | Except.ok (db2, rs) => Except.ok (db2, step.2.toList ++ rs)

/-- The whole admin handler around the loop: the committed table and the
HTTP status.  On success the loop's final table is committed and the
route answers 200; on any statement failure the transaction is rolled
back (the table reverts to its pre-`BEGIN` state) and the rethrown error
reaches the outer catch, which answers 500. -/
def adminBatchHandler {α β : Type} (skip failOn : String → Bool)
    (op : α → String → α × Option β) (db : α) (names : List String) : α × Nat :=
  match adminBatchRun skip failOn op db names with
  | Except.ok (db2, _) => (db2, 200)
  | Except.error _ => (db, 500)

/-! ## Generation client (`fetchAIStructure` in the AI service)

External collaborators are oracles in the environment: the
`ai_providers` lookup result, the axios call outcome (a network error
and a non-2xx response both reject the promise, merged into
`NetOutcome.failure`; a fulfilled promise carries the optional text
field extracted from the response envelope), and `JSON.parse` together
with the shape normalization `Array.isArray(p) ? p : (p.items || p.list
|| [])` (note an empty array is truthy in JavaScript, so `items`/`list`
are used whenever present). -/

structure ProviderRow where
  api_key : String
  model_name : String
  base_url : String
deriving DecidableEq, Repr

inductive NetOutcome where
  | failure (msg : String)
  | success (text : Option String)
deriving DecidableEq, Repr

inductive JsonShape where
  | malformed
  | arr (xs : List String)
  | objItems (xs : List String)
  | objList (xs : List String)
  | other
deriving DecidableEq, Repr

structure FetchEnv where
  provider : Option ProviderRow
  net : NetOutcome
  parse : String → JsonShape

/-- `rows.length === 0 || !rows[0].api_key` is the unconfigured test in
the service (a missing key is NULL or the empty string, both falsy). -/
def aiConfigured (env : FetchEnv) : Bool :=
  match env.provider with
  | none => false
  | some p => p.api_key != ""

/-- `fallbackMockStructure(type, context)` — the deterministic mock list. -/
def fallbackMockStructure (ty ctx : String) : List String :=
  ["Sample " ++ ty ++ " 1 (" ++ ctx ++ ")",
   "Sample " ++ ty ++ " 2 (" ++ ctx ++ ")",
   "Sample " ++ ty ++ " 3 (" ++ ctx ++ ")",
   "Sample " ++ ty ++ " 4 (" ++ ctx ++ ")",
   "Sample " ++ ty ++ " 5 (" ++ ctx ++ ")"]

/-- The defensive fence stripping:
`text.replace(/```json/g, '').replace(/```/g, '').trim()`. -/
def cleanFences (text : String) : String :=
  ((text.replace "```json" "").replace "```" "").trim

/-- `fetchAIStructure(type, context)`: returns the produced list and
whether an outbound network call was made.  Every `throw` inside the
`try` (unconfigured provider, rejected axios promise, empty envelope
text, `JSON.parse` error) lands in the catch, which returns
`fallbackMockStructure`; a successfully parsed value is normalized to a
list without consulting the fallback. -/
def fetchAIStructure (env : FetchEnv) (ty ctx : String) : List String × Bool :=
  match env.provider with
  | none => (fallbackMockStructure ty ctx, false)
  | some p =>
    if p.api_key == "" then (fallbackMockStructure ty ctx, false)
    else
      match env.net with
      | NetOutcome.failure _ => (fallbackMockStructure ty ctx, true)
      | NetOutcome.success none => (fallbackMockStructure ty ctx, true)
      | NetOutcome.success (some text) =>
        match env.parse (cleanFences text) with
        | JsonShape.malformed => (fallbackMockStructure ty ctx, true)
        | JsonShape.arr xs => (xs, true)
        | JsonShape.objItems xs => (xs, true)
        | JsonShape.objList xs => (xs, true)
        | JsonShape.other => ([], true)

/-! ## Theorems -/

/-- Claim C8: the rate limiter's behavior for one client identifier: a
first-ever check creates a record with count 1 and a fresh 15-minute
window and allows; a check strictly after `resetTime` resets the count
to 1 with a fresh window and allows (so a previously limited client is
allowed again with its counter restarted at 1, whatever its old count
was); otherwise the count is incremented — even when the check is then
rejected — and the check is rejected exactly when the incremented count
exceeds 10. -/
theorem rateLimiter_window_behavior (rec : RateRecord) (now : Nat) :
    rateLimitStep none now = ({ count := 1, resetTime := now + rateWindowMs }, true)
    ∧ (rec.resetTime < now →
        rateLimitStep (some rec) now
          = ({ count := 1, resetTime := now + rateWindowMs }, true))
    ∧ (¬ rec.resetTime < now →
        (rateLimitStep (some rec) now).1.count = rec.count + 1
        ∧ (rateLimitStep (some rec) now).1.resetTime = rec.resetTime
        ∧ ((rateLimitStep (some rec) now).2 = false ↔
            rateMaxRequests < rec.count + 1)) := by
  refine ⟨rfl, fun h => ?_, fun h => ?_⟩
  · simp [rateLimitStep, h]
  · simp [rateLimitStep, h, Nat.not_le]

/-- Witness for C8: a client at count 10 inside its window is rejected
and its stored count still advances to 11. -/
theorem rateLimiter_window_behavior_witness :
    (rateLimitStep (some ⟨10, 100⟩) 50).1.count = 11
    ∧ (rateLimitStep (some ⟨10, 100⟩) 50).2 = false := by
  have h := (rateLimiter_window_behavior ⟨10, 100⟩ 50).2.2 (by decide)
  exact ⟨h.1, h.2.2.mpr (by decide)⟩

/-- Claim C9: of two simultaneous fetch-out requests for the identical
in-flight key, exactly one proceeds (and finishes 200 on success or 500
on a caught error) while the other is rejected 429 without changing the
guard set; whatever the acquiring request's outcome, its `finally`
releases the key, so after both complete the guard set is exactly the
initial one and holds no key for the completed request. -/
theorem guard_mutual_exclusion_and_release (s0 : List String) (k : String)
    (aSucceeds bSucceeds : Bool) (hk : k ∉ s0) :
    (runGuardedPair s0 k aSucceeds bSucceeds).1
        = (if aSucceeds then 200 else 500)
    ∧ (runGuardedPair s0 k aSucceeds bSucceeds).2.1 = 429
    ∧ (runGuardedPair s0 k aSucceeds bSucceeds).2.2 = s0
    ∧ k ∉ (runGuardedPair s0 k aSucceeds bSucceeds).2.2 := by
  have h1 : tryAcquire s0 k = (k :: s0, true) := by simp [tryAcquire, hk]
  have h2 : tryAcquire (k :: s0) k = (k :: s0, false) := by simp [tryAcquire]
  have h3 : releaseKey (k :: s0) k = s0 := by
    simp [releaseKey, List.erase_cons_head]
  simp only [runGuardedPair, h1, h2, h3]
  exact ⟨rfl, rfl, rfl, hk⟩

/-- Witness for C9: two simultaneous `boards_7` fetches starting from an
empty guard set. -/
theorem guard_mutual_exclusion_and_release_witness :
    (runGuardedPair [] "boards_7" true true).1 = 200
    ∧ (runGuardedPair [] "boards_7" true true).2.1 = 429
    ∧ (runGuardedPair [] "boards_7" true true).2.2 = [] := by
  have h := guard_mutual_exclusion_and_release [] "boards_7" true true
    (List.not_mem_nil "boards_7")
  exact ⟨h.1, h.2.1, h.2.2.1⟩

/-- Claim C2: the subject-ingestion existence check compares the scope
null-aware: with the board and class ids matching and the names equal
under `LOWER`, a candidate with null `stream_id` matches a stored row
whose `stream_id` is null, does not match a row whose `stream_id` is a
concrete value, and a concrete candidate `stream_id` does not match a
null-stream row. -/
theorem subject_scope_null_aware (r : SubjectRow) (b c : Nat) (n : String)
    (hb : r.board_id = some b) (hc : r.class_id = some c)
    (hn : strLower r.name = strLower n) :
    (r.stream_id = none → fetchOutSubjectMatch b c none n r = true)
    ∧ (∀ v : Nat, r.stream_id = some v → fetchOutSubjectMatch b c none n r = false)
    ∧ (∀ v : Nat, r.stream_id = none → fetchOutSubjectMatch b c (some v) n r = false) := by
  refine ⟨fun hs => ?_, fun v hs => ?_, fun v hs => ?_⟩ <;>
    simp [fetchOutSubjectMatch, sqlEqNat, sqlNullAwareEq, hb, hc, hn, hs]

/-- Witness for C2: a null-stream "Bengali" row matches a null-stream
candidate spelled "bengali" and does not match the same candidate
scoped to stream 5. -/
theorem subject_scope_null_aware_witness :
    fetchOutSubjectMatch 3 4 none "bengali"
      ⟨1, "Bengali", 1, some 3, some 4, none, none, none, none, none, true, true⟩ = true
    ∧ fetchOutSubjectMatch 3 4 (some 5) "bengali"
      ⟨1, "Bengali", 1, some 3, some 4, none, none, none, none, none, true, true⟩ = false := by
  have h := subject_scope_null_aware
    ⟨1, "Bengali", 1, some 3, some 4, none, none, none, none, none, true, true⟩
    3 4 "bengali" rfl rfl (by decide)
  exact ⟨h.1 rfl, h.2.2 5 rfl⟩

/-- Counterexample to claim C3 as stated: the admin
`POST /ai-fetch/subjects` existence subquery compares names with plain
`name = $1`, so a stored "Math" row is NOT recognized as existing for
the candidate "MATH" (the public fetch-out check, using
`LOWER(name) = LOWER($4)`, does recognize it). -/
theorem admin_subject_name_check_case_sensitive_cex :
    adminSubjectMatch (some 1) (some 2) none "MATH"
      ⟨1, "Math", 1, some 1, some 2, none, none, none, none, none, true, true⟩ = false
    ∧ strLower "Math" = strLower "MATH"
    ∧ fetchOutSubjectMatch 1 2 none "MATH"
      ⟨1, "Math", 1, some 1, some 2, none, none, none, none, none, true, true⟩ = true := by
  refine ⟨by decide, by decide, by decide⟩

/-- Claim C3, amended: only the public fetch-out existence check is
case-insensitive — two candidate names equal under `LOWER` are
interchangeable in it; the admin path's existence subquery compares
names exactly, so it only ever matches a row whose stored name is
identical to the candidate. -/
theorem name_check_case_sensitivity_by_path :
    (∀ (b c : Nat) (s : Option Nat) (n₁ n₂ : String) (r : SubjectRow),
        strLower n₁ = strLower n₂ →
        fetchOutSubjectMatch b c s n₁ r = fetchOutSubjectMatch b c s n₂ r)
    ∧ (∀ (b c s : Option Nat) (n : String) (r : SubjectRow),
        adminSubjectMatch b c s n r = true → r.name = n) := by
  constructor
  · intro b c s n₁ n₂ r h
    simp [fetchOutSubjectMatch, h]
  · intro b c s n r h
    simp only [adminSubjectMatch, Bool.and_eq_true, beq_iff_eq] at h
    exact h.2

/-- Witness for C3 (amended): "MATH" and "math" are interchangeable in
the fetch-out check, and an admin-path hit on "Math" pins the stored
name to exactly "Math". -/
theorem name_check_case_sensitivity_by_path_witness :
    fetchOutSubjectMatch 1 2 none "MATH"
        ⟨1, "Math", 1, some 1, some 2, none, none, none, none, none, true, true⟩
      = fetchOutSubjectMatch 1 2 none "math"
        ⟨1, "Math", 1, some 1, some 2, none, none, none, none, none, true, true⟩
    ∧ (⟨1, "Math", 1, some 1, some 2, none, none, none, none, none, true, true⟩ :
        SubjectRow).name = "Math" :=
  ⟨name_check_case_sensitivity_by_path.1 1 2 none "MATH" "math" _ (by decide),
   name_check_case_sensitivity_by_path.2 (some 1) (some 2) none "Math" _ (by decide)⟩

/-- Claim C10: when no existing row matches the scope, the
`POST /fetch-out-subjects` insert branch appends exactly one row whose
`category_id` is the hard-coded 1 and whose `is_active` and
`is_approved` are TRUE, for every request body (`b`, `c`, `s` are the
only body-derived values reaching the insert — no body field can choose
another category or leave the row unapproved). -/
theorem fetchOut_subject_insert_defaults (db : List SubjectRow)
    (nextId b c : Nat) (s : Option Nat) (raw n : String)
    (hn : normalizeCandidate raw = n) (hne : (n == "") = false)
    (hfind : db.find? (fetchOutSubjectMatch b c s n) = none) :
    processFetchOutSubjectItem db nextId b c s raw
      = (db ++ [mkFetchOutSubjectRow nextId n b c s], [(nextId, n)])
    ∧ (mkFetchOutSubjectRow nextId n b c s).category_id = 1
    ∧ (mkFetchOutSubjectRow nextId n b c s).is_active = true
    ∧ (mkFetchOutSubjectRow nextId n b c s).is_approved = true := by
  subst hn
  refine ⟨?_, rfl, rfl, rfl⟩
  simp only [processFetchOutSubjectItem, hne, hfind]
  simp

/-- Witness for C10: inserting "Physics" into an empty subjects table. -/
theorem fetchOut_subject_insert_defaults_witness :
    processFetchOutSubjectItem [] 5 1 2 none "Physics"
      = ([mkFetchOutSubjectRow 5 "Physics" 1 2 none], [(5, "Physics")])
    ∧ (mkFetchOutSubjectRow 5 "Physics" 1 2 none).category_id = 1
    ∧ (mkFetchOutSubjectRow 5 "Physics" 1 2 none).is_active = true
    ∧ (mkFetchOutSubjectRow 5 "Physics" 1 2 none).is_approved = true :=
  fetchOut_subject_insert_defaults [] 5 1 2 none "Physics" "Physics"
    (by decide) (by decide) rfl

/-- Counterexample to claim C5 as stated: the public
`POST /fetch-out-boards` path has no placeholder guard — its only filter
is the non-school keyword denylist, which "Board 1" does not match — so
a candidate named "Board 1" IS persisted by that board-ingestion path
(here, upserted into an empty boards table for state 7). -/
theorem board1_persisted_by_fetch_out_cex :
    processFetchOutBoardItem [] 1 7 "Board 1" = [⟨1, "Board 1", 7, true⟩] := by
  decide

/-- Claim C5, amended: the placeholder rejection of "Board 1" holds only
on the admin `POST /ai-fetch/boards` path (its guard skips any name
containing "board " or "placeholder" case-insensitively); the public
fetch-out-boards path persists "Board 1".  The second half of the claim
stands: any candidate whose normalized name contains "university"
(case-insensitively) is never persisted by the school-board
(fetch-out-boards) filter — the table is left untouched. -/
theorem board_filters_by_path :
    adminBoardGuardSkips "Board 1" = true
    ∧ (∀ (db : List BoardRow) (nextId sid : Nat) (raw : String),
        strIncludes (strLower (normalizeCandidate raw)) "university" = true →
        processFetchOutBoardItem db nextId sid raw = db) := by
  refine ⟨by decide, fun db nextId sid raw h => ?_⟩
  simp only [processFetchOutBoardItem]
  by_cases h0 : (normalizeCandidate raw == "") = true
  · simp [h0]
  · have hany : nonSchoolKeywords.any
        (fun kw => strIncludes (strLower (normalizeCandidate raw)) kw) = true :=
      List.any_eq_true.mpr ⟨"university", by simp [nonSchoolKeywords], h⟩
    simp [h0, hany]

/-- Witness for C5 (amended): the admin guard skips "Board 1", and
"Some University Board" leaves an empty boards table empty on the
fetch-out path. -/
theorem board_filters_by_path_witness :
    adminBoardGuardSkips "Board 1" = true
    ∧ processFetchOutBoardItem [] 2 7 "Some University Board" = [] :=
  ⟨board_filters_by_path.1,
   board_filters_by_path.2 [] 2 7 "Some University Board" (by decide)⟩

/-- Claim C6: with no active provider configured (no provider row, or a
row with a falsy API key), `fetchAIStructure` returns exactly the
5-item deterministic mock list — each item carrying the literal
`Sample ` mock marker — and performs no outbound network call. -/
theorem mock_fallback_when_unconfigured (env : FetchEnv) (ty ctx : String)
    (h : aiConfigured env = false) :
    fetchAIStructure env ty ctx = (fallbackMockStructure ty ctx, false)
    ∧ (fetchAIStructure env ty ctx).1.length = 5
    ∧ ∀ item ∈ (fetchAIStructure env ty ctx).1, ∃ rest, item = "Sample " ++ rest := by
  have heq : fetchAIStructure env ty ctx = (fallbackMockStructure ty ctx, false) := by
    cases hp : env.provider with
    | none => simp [fetchAIStructure, hp]
    | some p =>
      have hk : (p.api_key == "") = true := by
        simpa [aiConfigured, hp, bne] using h
      simp [fetchAIStructure, hp, hk]
  refine ⟨heq, ?_, ?_⟩
  · rw [heq]; rfl
  · rw [heq]
    intro item hitem
    simp only [fallbackMockStructure, List.mem_cons, List.not_mem_nil, or_false] at hitem
    rcases hitem with rfl | rfl | rfl | rfl | rfl <;>
      exact ⟨_, by rw [String.append_assoc, String.append_assoc, String.append_assoc]⟩

/-- Witness for C6: an environment whose provider lookup is empty. -/
theorem mock_fallback_when_unconfigured_witness :
    fetchAIStructure
        ⟨none, NetOutcome.failure "unused", fun _ => JsonShape.malformed⟩ "boards" "ctx"
      = (fallbackMockStructure "boards" "ctx", false)
    ∧ (fetchAIStructure
        ⟨none, NetOutcome.failure "unused", fun _ => JsonShape.malformed⟩ "boards" "ctx").1.length
      = 5 :=
  have h := mock_fallback_when_unconfigured
    ⟨none, NetOutcome.failure "unused", fun _ => JsonShape.malformed⟩ "boards" "ctx" rfl
  ⟨h.1, h.2.1⟩

/-- Counterexample to claim C7 as stated: with a configured provider
whose response text parses to the empty JSON array, `fetchAIStructure`
returns the empty list — not the fallback mock generator's output — so
the "empty parse result" failure mode does not yield the mock output. -/
theorem empty_parse_returns_empty_not_mock_cex :
    (fetchAIStructure
        ⟨some ⟨"key", "gemini-pro", "https://api"⟩,
         NetOutcome.success (some "[]"), fun _ => JsonShape.arr []⟩ "boards" "ctx").1 = []
    ∧ fallbackMockStructure "boards" "ctx" ≠ [] :=
  ⟨rfl, by decide⟩

/-- Claim C7, amended: the generation client never propagates an
exception (the embedding is a total function); a network error or
non-2xx response, a missing text field in the response envelope, and
malformed JSON each make it return the fallback mock generator's
output, while an empty parse result (an empty JSON array) is returned
as the empty list rather than the mock output — in every case the
caller receives a well-formed list. -/
theorem generation_client_failure_modes (env : FetchEnv) (ty ctx : String)
    (hcfg : aiConfigured env = true) :
    (∀ msg, env.net = NetOutcome.failure msg →
        fetchAIStructure env ty ctx = (fallbackMockStructure ty ctx, true))
    ∧ (env.net = NetOutcome.success none →
        fetchAIStructure env ty ctx = (fallbackMockStructure ty ctx, true))
    ∧ (∀ text, env.net = NetOutcome.success (some text) →
        env.parse (cleanFences text) = JsonShape.malformed →
        fetchAIStructure env ty ctx = (fallbackMockStructure ty ctx, true))
    ∧ (∀ text, env.net = NetOutcome.success (some text) →
        env.parse (cleanFences text) = JsonShape.arr [] →
        fetchAIStructure env ty ctx = ([], true)) := by
  obtain ⟨p, hp, hkey⟩ : ∃ p, env.provider = some p ∧ (p.api_key == "") = false := by
    cases hp : env.provider with
    | none => rw [aiConfigured, hp] at hcfg; cases hcfg
    | some p =>
      refine ⟨p, rfl, ?_⟩
      rw [aiConfigured, hp] at hcfg
      simpa [bne] using hcfg
  refine ⟨fun msg hnet => ?_, fun hnet => ?_, fun text hnet hparse => ?_,
    fun text hnet hparse => ?_⟩
  · simp [fetchAIStructure, hp, hkey, hnet]
  · simp [fetchAIStructure, hp, hkey, hnet]
  · simp [fetchAIStructure, hp, hkey, hnet, hparse]
  · simp [fetchAIStructure, hp, hkey, hnet, hparse]

/-- Witness for C7 (amended): a configured provider whose call fails on
the network returns the mock fallback. -/
theorem generation_client_failure_modes_witness :
    fetchAIStructure
        ⟨some ⟨"key", "gemini-pro", "https://api"⟩, NetOutcome.failure "timeout",
         fun _ => JsonShape.malformed⟩ "boards" "ctx"
      = (fallbackMockStructure "boards" "ctx", true) :=
  (generation_client_failure_modes
      ⟨some ⟨"key", "gemini-pro", "https://api"⟩, NetOutcome.failure "timeout",
       fun _ => JsonShape.malformed⟩ "boards" "ctx" rfl).1 "timeout" rfl

/-- If some candidate the loop actually reaches fails its statement —
i.e. some batch member neither skipped by the guard nor preceded by an
earlier failure has `failOn` — the loop errors out.  (The first
non-skipped failing candidate is always reached.) -/
lemma adminBatchRun_error_of_fail {α β : Type} (skip failOn : String → Bool)
    (op : α → String → α × Option β) (names : List String) (db : α)
    (h : ∃ n, n ∈ names ∧ skip n = false ∧ failOn n = true) :
    adminBatchRun skip failOn op db names = Except.error () := by
  induction names generalizing db with
  | nil =>
    obtain ⟨n, hn, -, -⟩ := h
    exact absurd hn (List.not_mem_nil n)
  | cons m rest ih =>
    obtain ⟨n, hn, hskip, hfail⟩ := h
    by_cases hm : skip m = true
    · have hmem : n ∈ rest := by
        rcases List.mem_cons.mp hn with rfl | hmem
        · rw [hm] at hskip; cases hskip
        · exact hmem
      simp [adminBatchRun, hm, ih db ⟨n, hmem, hskip, hfail⟩]
    · by_cases hf : failOn m = true
      · simp [adminBatchRun, hm, hf]
      · have hmem : n ∈ rest := by
          rcases List.mem_cons.mp hn with rfl | hmem
          · rw [hfail] at hf; exact absurd rfl hf
          · exact hmem
        simp [adminBatchRun, hm, hf, ih (op db m).1 ⟨n, hmem, hskip, hfail⟩]

/-- Claim C4: every admin ai-fetch batch (boards, universities, papers,
subjects, chapters — all instantiate this handler shape) runs its whole
candidate loop inside one transaction: if any reachable candidate's
statement fails, `ROLLBACK` reverts the table to its pre-batch state
(no row of the batch is committed) and the rethrown error reaches the
route's outer catch, which answers 500. -/
theorem admin_batch_rollback_on_failure {α β : Type} (skip failOn : String → Bool)
    (op : α → String → α × Option β) (db : α) (names : List String)
    (h : ∃ n, n ∈ names ∧ skip n = false ∧ failOn n = true) :
    adminBatchHandler skip failOn op db names = (db, 500) := by
  rw [adminBatchHandler, adminBatchRun_error_of_fail skip failOn op names db h]

/-- Witness for C4: an admin boards batch whose single candidate's
insert statement fails leaves the empty table empty and answers 500. -/
theorem admin_batch_rollback_on_failure_witness :
    adminBatchHandler adminBoardGuardSkips (fun n => n == "CBSE")
      (fun db n => adminInsertBoard db 3 n 7) ([] : List BoardRow) ["CBSE"]
      = ([], 500) :=
  admin_batch_rollback_on_failure adminBoardGuardSkips (fun n => n == "CBSE")
    (fun db n => adminInsertBoard db 3 n 7) [] ["CBSE"]
    ⟨"CBSE", by decide, by decide, by decide⟩

/-- Reactivating a row does not change its `(state_id, name)` key. -/
lemma boardKey_set_active (sid : Nat) (n : String) (r : BoardRow) :
    boardKey sid n { r with is_active := true } = boardKey sid n r := rfl

/-- The `DO UPDATE SET is_active = TRUE` branch leaves the number of
rows for the key unchanged. -/
lemma boardKeyCount_update (db : List BoardRow) (sid : Nat) (n : String) :
    boardKeyCount
      (db.map (fun r => if boardKey sid n r then { r with is_active := true } else r))
      sid n = boardKeyCount db sid n := by
  have hpt : ∀ r : BoardRow,
      boardKey sid n (if boardKey sid n r then { r with is_active := true } else r)
        = boardKey sid n r := by
    intro r
    by_cases h : boardKey sid n r = true
    · rw [if_pos h, boardKey_set_active]
    · rw [if_neg h]
  unfold boardKeyCount
  induction db with
  | nil => rfl
  | cons a t ih =>
    rw [List.map_cons, List.filter_cons, List.filter_cons, hpt a]
    by_cases h : boardKey sid n a = true <;> simp [h, ih]

/-- `ON CONFLICT` fires exactly when the key already has a row. -/
lemma boardAny_iff (db : List BoardRow) (sid : Nat) (n : String) :
    db.any (boardKey sid n) = true ↔ 0 < boardKeyCount db sid n := by
  rw [boardKeyCount]
  constructor
  · intro h
    obtain ⟨x, hx, hpx⟩ := List.any_eq_true.mp h
    exact List.length_pos.mpr (List.ne_nil_of_mem (List.mem_filter.mpr ⟨hx, hpx⟩))
  · intro h
    obtain ⟨x, hx⟩ := List.exists_mem_of_length_pos h
    exact List.any_eq_true.mpr ⟨x, (List.mem_filter.mp hx).1, (List.mem_filter.mp hx).2⟩

/-- Under the `(state_id, name)` uniqueness constraint, one fetch-out
upsert leaves exactly one row for the key. -/
lemma fetchOutUpsert_count (db : List BoardRow) (i : Nat) (n : String) (sid : Nat)
    (h : boardKeyCount db sid n ≤ 1) :
    boardKeyCount (fetchOutUpsertBoard db i n sid) sid n = 1 := by
  by_cases ha : db.any (boardKey sid n) = true
  · rw [fetchOutUpsertBoard, if_pos ha, boardKeyCount_update]
    have := (boardAny_iff db sid n).mp ha
    omega
  · have h0 : boardKeyCount db sid n = 0 := by
      rcases Nat.eq_zero_or_pos (boardKeyCount db sid n) with h0 | hpos
      · exact h0
      · exact absurd ((boardAny_iff db sid n).mpr hpos) ha
    have hrow : boardKey sid n ⟨i, n, sid, true⟩ = true := by simp [boardKey]
    rw [boardKeyCount] at h0
    rw [fetchOutUpsertBoard, if_neg ha]
    simp [boardKeyCount, List.filter_append, hrow, h0]

/-- After an upsert that hit the conflict branch, every row for the key
is active. -/
lemma fetchOutUpsert_all_active (db : List BoardRow) (i : Nat) (n : String) (sid : Nat)
    (hpos : 0 < boardKeyCount db sid n) :
    ∀ r ∈ fetchOutUpsertBoard db i n sid, boardKey sid n r = true → r.is_active = true := by
  rw [fetchOutUpsertBoard, if_pos ((boardAny_iff db sid n).mpr hpos)]
  intro r hr hkey
  obtain ⟨x, hx, rfl⟩ := List.mem_map.mp hr
  by_cases h : boardKey sid n x = true
  · rw [if_pos h]
  · rw [if_neg h] at hkey
    exact absurd hkey h

/-- Under the uniqueness constraint, one admin `DO NOTHING` insert
leaves exactly one row for the key. -/
lemma adminInsert_count (db : List BoardRow) (i : Nat) (n : String) (sid : Nat)
    (h : boardKeyCount db sid n ≤ 1) :
    boardKeyCount (adminInsertBoard db i n sid).1 sid n = 1 := by
  by_cases ha : db.any (boardKey sid n) = true
  · rw [adminInsertBoard, if_pos ha]
    have := (boardAny_iff db sid n).mp ha
    show boardKeyCount db sid n = 1
    omega
  · have h0 : boardKeyCount db sid n = 0 := by
      rcases Nat.eq_zero_or_pos (boardKeyCount db sid n) with h0 | hpos
      · exact h0
      · exact absurd ((boardAny_iff db sid n).mpr hpos) ha
    have hrow : boardKey sid n ⟨i, n, sid, true⟩ = true := by simp [boardKey]
    rw [boardKeyCount] at h0
    rw [adminInsertBoard, if_neg ha]
    show boardKeyCount (db ++ [⟨i, n, sid, true⟩]) sid n = 1
    simp [boardKeyCount, List.filter_append, hrow, h0]

/-- When the key already has a row, the admin insert is skipped: the
table is unchanged and `RETURNING` produces no row. -/
lemma adminInsert_skips (db : List BoardRow) (j : Nat) (n : String) (sid : Nat)
    (hpos : 0 < boardKeyCount db sid n) :
    adminInsertBoard db j n sid = (db, none) := by
  rw [adminInsertBoard, if_pos ((boardAny_iff db sid n).mpr hpos)]

/-- Claim C1: under the `(state_id, name)` uniqueness constraint the
`ON CONFLICT` clauses rely on, ingesting the same candidate name twice
for the same scope never leaves two rows.  On the fetch-out upsert path
the second ingestion reactivates the existing row (afterwards every row
for the key is active) instead of inserting; on the admin `DO NOTHING`
path the second ingestion is skipped (`RETURNING` is empty); in both
cases exactly one row for the `(scope, name)` key exists afterward. -/
theorem board_ingestion_idempotent (db : List BoardRow) (i j : Nat) (n : String)
    (sid : Nat) (h : boardKeyCount db sid n ≤ 1) :
    boardKeyCount (fetchOutUpsertBoard (fetchOutUpsertBoard db i n sid) j n sid) sid n = 1
    ∧ (∀ r ∈ fetchOutUpsertBoard (fetchOutUpsertBoard db i n sid) j n sid,
        boardKey sid n r = true → r.is_active = true)
    ∧ boardKeyCount (adminInsertBoard (adminInsertBoard db i n sid).1 j n sid).1 sid n = 1
    ∧ (adminInsertBoard (adminInsertBoard db i n sid).1 j n sid).2 = none := by
  have h1 := fetchOutUpsert_count db i n sid h
  have h2 := fetchOutUpsert_count (fetchOutUpsertBoard db i n sid) j n sid (Nat.le_of_eq h1)
  have ha1 := adminInsert_count db i n sid h
  have hskip := adminInsert_skips (adminInsertBoard db i n sid).1 j n sid (ha1 ▸ Nat.one_pos)
  refine ⟨h2, fetchOutUpsert_all_active _ j n sid (h1 ▸ Nat.one_pos), ?_, ?_⟩
  · rw [hskip]
    exact ha1
  · rw [hskip]

/-- Witness for C1: ingesting "WBBSE" for state 7 twice into an empty
boards table, on both paths. -/
theorem board_ingestion_idempotent_witness :
    boardKeyCount
      (fetchOutUpsertBoard (fetchOutUpsertBoard [] 1 "WBBSE" 7) 2 "WBBSE" 7) 7 "WBBSE" = 1
    ∧ (adminInsertBoard (adminInsertBoard [] 1 "WBBSE" 7).1 2 "WBBSE" 7).2 = none :=
  have h := board_ingestion_idempotent [] 1 2 "WBBSE" 7 (by decide)
  ⟨h.1, h.2.2.2⟩

end ExamRedy
